import Mathlib

/-!
Verification development for the inventory-system repository
(`migrate.py`, the migration CLI, and `validate.py`, the validation CLI).

The migration helpers `migrate_from_json` and
`extract_localstorage_from_html` live in `src/utils/migration`, outside the
two files shown; they are modelled from the specification (sections 3, 4.1
and 7).  The persistence API (`create_*`, `get_*`, `delete_*`) is an external
collaborator and is modelled as an explicit store value threaded through the
functions.  Everything in `migrate.py` and `validate.py` itself (dispatch on
the file extension, the CLI printing, the validation driver and the test
group bodies) is embedded directly from the source.
-/

namespace InventoryMigration

/-- A Python value appearing in a migration result dictionary. -/
inductive RVal where
  | bool (b : Bool)
  | nat (n : Nat)
  | str (s : String)
  | strList (l : List String)
  deriving DecidableEq, Repr

/-- A Python dictionary used as a migration result: an association list of
string keys to values (insertion order kept, keys unique in practice). -/
abbrev ResultDict := List (String × RVal)

/-- Dictionary key lookup, `d[k]` / `d.get(k)`: first binding wins. -/
def dlookup (d : ResultDict) (k : String) : Option RVal :=
  match d with
  | [] => none
  | (k2, v) :: rest => if k2 = k then some v else dlookup rest k

/-- Python truthiness of a result value (`if result['success']:` etc.). -/
def pyTruthy : RVal → Bool
  | .bool b => b
  | .nat n => n != 0
  | .str s => s != ""
  | .strList l => !l.isEmpty

/-- A scalar field value inside a legacy-export record. -/
inductive FVal where
  | str (s : String)
  | num (q : ℚ)
  | nul
  deriving DecidableEq, Repr

/-- One flat field/value record of a legacy export (spec section 6:
"each value an ordered sequence of flat field/value records"). -/
abbrev RawRecord := List (String × FVal)

/-- Field access within a record: first binding wins. -/
def fieldOf (r : RawRecord) (k : String) : Option FVal :=
  match r with
  | [] => none
  | (k2, v) :: rest => if k2 = k then some v else fieldOf rest k

/-- The six legacy-export categories, in their fixed processing order
(spec section 4.1). -/
inductive Cat where
  | products
  | branches
  | inventory
  | waste
  | purchases
  | invoices
  deriving DecidableEq, Repr

/-- The category's name as it appears as a top-level export key. -/
def Cat.name : Cat → String
  | .products => "products"
  | .branches => "branches"
  | .inventory => "inventory"
  | .waste => "waste"
  | .purchases => "purchases"
  | .invoices => "invoices"

/-- A parsed legacy export: a mapping from category to an ordered sequence
of records (spec section 3). -/
structure LegacyExport where
  products : List RawRecord
  branches : List RawRecord
  inventory : List RawRecord
  waste : List RawRecord
  purchases : List RawRecord
  invoices : List RawRecord

/-- The persistence store as seen by the importer: the sequence of records
created so far, each tagged with its category.  The external API is the
authority on identity; only insertion is relevant to the importer (spec
section 3: the importer depends only on the `create_*` family). -/
abbrev Store := List (Cat × RawRecord)

/-- Modelled from the spec: record validation inside `migrate_from_json`
(`src/utils/migration`, not under `src/`).  Spec section 4.1: "validates
required fields are present and well-typed (numeric price/cost/quantity,
non-empty name)"; the product fields are those of the section 8 end-to-end
example (name, category, price, cost, measurement_unit), branches need name
and location, inventory needs product/branch references, month, year and a
numeric quantity (section 3).  The spec does not enumerate the required
fields of waste, purchases and invoices, so those categories accept any
record. -/
def validRecord (c : Cat) (r : RawRecord) : Bool :=
  match c with
  | .products =>
    (match fieldOf r "name" with | some (.str s) => s != "" | _ => false) &&
    (match fieldOf r "category" with | some (.str _) => true | _ => false) &&
    (match fieldOf r "price" with | some (.num _) => true | _ => false) &&
    (match fieldOf r "cost" with | some (.num _) => true | _ => false) &&
    (match fieldOf r "measurement_unit" with | some (.str _) => true | _ => false)
  | .branches =>
    (match fieldOf r "name" with | some (.str s) => s != "" | _ => false) &&
    (match fieldOf r "location" with | some (.str _) => true | _ => false)
  | .inventory =>
    (match fieldOf r "product_id" with | some (.num _) => true | _ => false) &&
    (match fieldOf r "branch_id" with | some (.num _) => true | _ => false) &&
    (match fieldOf r "month" with | some (.num _) => true | _ => false) &&
    (match fieldOf r "year" with | some (.num _) => true | _ => false) &&
    (match fieldOf r "quantity" with | some (.num _) => true | _ => false)
  | _ => true

/-- Modelled from the spec: the descriptive per-record error string
appended when a record is skipped (spec section 4.1: "appends a descriptive
error string (including which record and why)").  Tagged with the category
it is attributable to; `Cat.name` plus this message is the rendered
string. -/
def recordErr (i : Nat) : String :=
  " record " ++ toString i ++ ": missing or invalid required fields"

/-- Rendering of one tagged error as the human-readable string placed in
the result's errors list. -/
def renderErr (e : Cat × String) : String :=
  e.1.name ++ e.2

/-- Modelled from the spec: processing of one category's record list
(spec section 4.1): for each record, validate; if valid call the external
create operation (an insertion into the store, which assigns identity) and
increment the category's counter; otherwise append a descriptive error and
continue with the next record. -/
def runCat (c : Cat) (i : Nat) (rs : List RawRecord) (st : Store) :
    Nat × List (Cat × String) × Store :=
  match rs with
  | [] => (0, [], st)
  | r :: rest =>
    if validRecord c r then
      let out := runCat c (i + 1) rest (st ++ [(c, r)])
      (out.1 + 1, out.2.1, out.2.2)
    else
      let out := runCat c (i + 1) rest st
      (out.1, (c, recordErr i) :: out.2.1, out.2.2)

/-- The per-category counts, accumulated errors and final store of a
migration run over a parsed export. -/
structure MigOutcome where
  products : Nat
  branches : Nat
  inventory : Nat
  waste : Nat
  purchases : Nat
  invoices : Nat
  errors : List (Cat × String)
  store : Store

/-- Modelled from the spec: the body of `migrate_from_json` after parsing
(spec section 4.1): categories are processed in the fixed order products,
branches, inventory, waste, purchases, invoices, accumulating counts and
errors. -/
def migrateExport (e : LegacyExport) (st : Store) : MigOutcome :=
  let p := runCat .products 0 e.products st
  let b := runCat .branches 0 e.branches p.2.2
  let iv := runCat .inventory 0 e.inventory b.2.2
  let w := runCat .waste 0 e.waste iv.2.2
  let pu := runCat .purchases 0 e.purchases w.2.2
  let inv := runCat .invoices 0 e.invoices pu.2.2
  { products := p.1, branches := b.1, inventory := iv.1,
    waste := w.1, purchases := pu.1, invoices := inv.1,
    errors := p.2.1 ++ b.2.1 ++ iv.2.1 ++ w.2.1 ++ pu.2.1 ++ inv.2.1,
    store := inv.2.2 }

/-- The success result dictionary (spec section 4.1 result shape:
`{success: bool, products: int, ..., invoices: int, errors: [string]}`). -/
def successDict (o : MigOutcome) : ResultDict :=
  [("success", .bool true),
   ("products", .nat o.products),
   ("branches", .nat o.branches),
   ("inventory", .nat o.inventory),
   ("waste", .nat o.waste),
   ("purchases", .nat o.purchases),
   ("invoices", .nat o.invoices),
   ("errors", .strList (o.errors.map renderErr))]

/-- The top-level failure result dictionary of `migrate_from_json`
(spec section 4.1: `{success: false, error: string, errors: [string]}` when
the content cannot be parsed at all). -/
def parseFailDict (msg : String) : ResultDict :=
  [("success", .bool false),
   ("error", .str msg),
   ("errors", .strList [])]

/-- Modelled from the spec: `migrate_from_json` (`src/utils/migration`, not
under `src/`).  JSON parsing itself is external; it is abstracted as a
`parse` function from the raw text to an optional category mapping.  On
parse failure the function returns the failure result; otherwise it runs
the category migration of spec section 4.1 and reports overall success. -/
def migrate_from_json (parse : String → Option LegacyExport)
    (text : String) (st : Store) : ResultDict × Store :=
  match parse text with
  | none => (parseFailDict "Invalid JSON data", st)
  | some e =>
    let o := migrateExport e st
    (successDict o, o.store)

/-- Modelled from the spec: `extract_localstorage_from_html`
(`src/utils/migration`, not under `src/`).  Spec section 4.1: it locates
the serialized local-storage payload embedded in the HTML document and
returns the contained JSON text, and "fails (or returns empty) if no such
payload is found".  Payload location is abstracted as a `find` function;
absence yields the empty string, which no JSON parse accepts. -/
def extract_localstorage_from_html (find : String → Option String)
    (html : String) : String :=
  (find html).getD ""

/-- Python's case-sensitive `str.endswith(suffix)`: an exact character
suffix test. -/
def endswith (s suffix : String) : Bool :=
  suffix.data.isSuffixOf s.data

/-- The observable outcome of one `migrate_from_file` call: the returned
result dictionary, the persistence store after the call, and the list of
file paths that were opened and read. -/
structure FileOutcome where
  result : ResultDict
  store : Store
  reads : List String

/-- Embedding of `migrate_from_file` (src/migrate.py lines 21-50). The file
system is a map from path to content.  A path ending in `.json` is read and
fed to `migrate_from_json`; otherwise a path ending in `.html` is read,
routed through `extract_localstorage_from_html`, and the extracted text fed
to `migrate_from_json`; any other path yields the unsupported-file-type
failure dictionary of line 48 without the file being opened and with the
store untouched.  (`init_db` only installs the schema and is out of scope
per spec section 1; it does not create records.) -/
def migrate_from_file (parse : String → Option LegacyExport)
    (find : String → Option String) (fs : String → String)
    (file_path : String) (st : Store) : FileOutcome :=
  if endswith file_path ".json" then
    let out := migrate_from_json parse (fs file_path) st
    { result := out.1, store := out.2, reads := [file_path] }
  else if endswith file_path ".html" then
    let data := extract_localstorage_from_html find (fs file_path)
    let out := migrate_from_json parse data st
    { result := out.1, store := out.2, reads := [file_path] }
  else
    { result := [("success", .bool false),
                 ("error", .str "Unsupported file type. Use .json or .html")],
      store := st, reads := [] }

/-- Embedding of the `main` printing function of the migration CLI
(src/migrate.py lines 52-80) applied to an arbitrary result dictionary.
Returns the printed lines, or `none` when a direct dictionary index
(`result[key]`) hits a missing key (a Python `KeyError` crash).  The
success branch indexes `products`, `branches`, `inventory`, `waste`,
`purchases`, `invoices` and `errors` directly; the failure branch uses
`result.get(...)` with defaults. -/
def mainOutput (result : ResultDict) : Option (List String) := do
  let s ← dlookup result "success"
  if pyTruthy s then
    let p ← dlookup result "products"
    let b ← dlookup result "branches"
    let iv ← dlookup result "inventory"
    let w ← dlookup result "waste"
    let pu ← dlookup result "purchases"
    let inv ← dlookup result "invoices"
    let errs ← dlookup result "errors"
    let base := ["Migration completed successfully!",
      "Products: " ++ reprStr p, "Branches: " ++ reprStr b,
      "Inventory: " ++ reprStr iv, "Waste: " ++ reprStr w,
      "Purchases: " ++ reprStr pu, "Invoices: " ++ reprStr inv]
    let tail := if pyTruthy errs then ["Warnings/Errors:", reprStr errs] else []
    pure (base ++ tail)
  else
    let e := (dlookup result "error").getD (.str "Unknown error")
    let tail :=
      match dlookup result "errors" with
      | some el => if pyTruthy el then ["Errors:", reprStr el] else []
      | none => []
    pure (["Migration failed!", "Error: " ++ reprStr e] ++ tail)

end InventoryMigration

namespace InventoryValidation

/-- The outcome of calling one test-group function of validate.py against
the external database: either a returned boolean or a raised exception
carrying a message.  The groups drive the external CRUD API, so their
outcomes are inputs of the embedding of the driver. -/
abbrev TestOutcome := Except String Bool

/-- The outcomes of the four test-group functions, in the order of the
`tests` list of src/validate.py lines 342-347. -/
structure TestOutcomes where
  productOps : TestOutcome
  branchOps : TestOutcome
  inventoryOps : TestOutcome
  loadPerf : TestOutcome

/-- The `tests` list of src/validate.py lines 342-347: group names paired
with the outcome of running the group's function. -/
def groupsList (outs : TestOutcomes) : List (String × TestOutcome) :=
  [("Product Operations", outs.productOps),
   ("Branch Operations", outs.branchOps),
   ("Inventory Operations", outs.inventoryOps),
   ("Load Performance", outs.loadPerf)]

/-- The recorded result of one group (src/validate.py lines 352-362): the
returned boolean, or `false` when the function raised (the exception is
caught and the group marked failed). -/
def groupResult (o : TestOutcome) : Bool :=
  match o with
  | .ok b => b
  | .error _ => false

/-- The loop of src/validate.py lines 352-362: every group in the list is
run in order; its result (or `false` on an exception) is recorded in
`results`, and `all_passed` drops to `false` on any failure while the loop
continues with the next group. -/
def runGroups (l : List (String × TestOutcome)) : List (String × Bool) × Bool :=
  match l with
  | [] => ([], true)
  | (n, o) :: rest =>
    let r := groupResult o
    let out := runGroups rest
    ((n, r) :: out.1, r && out.2)

/-- Embedding of `run_validation_tests` (src/validate.py lines 331-374):
returns the `all_passed` verdict over the four fixed groups. -/
def run_validation_tests (outs : TestOutcomes) : Bool :=
  (runGroups (groupsList outs)).2

/-- The process exit code of the validation CLI (src/validate.py lines
376-378): `sys.exit(0 if success else 1)`. -/
def validateExitCode (outs : TestOutcomes) : Nat :=
  if run_validation_tests outs then 0 else 1

/-- The environment of one `test_load_performance` run (src/validate.py
lines 285-329): the id returned by `create_product` for each loop index
(`none` for a falsy id), the `get_all_products` answer, and the three
measured wall-clock durations in seconds. -/
structure LoadEnv where
  createRes : Nat → Option Nat
  allProducts : List Nat
  creationTime : ℚ
  retrievalTime : ℚ
  cleanupTime : ℚ

/-- The number of products the load test creates (src/validate.py
line 292: `num_products = 100`). -/
def num_products : Nat := 100

/-- The observable outcome of `test_load_performance`: the loop indices for
which `create_product` was called, the collected ids (also the ids then
deleted in cleanup), and the returned boolean. -/
structure LoadOutcome where
  attemptedCreates : List Nat
  createdIds : List Nat
  deletedIds : List Nat
  result : Bool

/-- Embedding of `test_load_performance` (src/validate.py lines 285-329):
`create_product` is attempted for every `i in range(num_products)`; ids
that come back truthy are collected and later deleted; the test passes iff
`creation_time < 5 and retrieval_time < 2 and cleanup_time < 5`. -/
def test_load_performance (env : LoadEnv) : LoadOutcome :=
  let attempts := List.range num_products
  let ids := attempts.filterMap env.createRes
  { attemptedCreates := attempts,
    createdIds := ids,
    deletedIds := ids,
    result := decide (env.creationTime < 5) && decide (env.retrievalTime < 2)
      && decide (env.cleanupTime < 5) }

/-- The kinds of records `test_inventory_operations` touches in the
persistence store. -/
inductive Ent where
  | product
  | branch
  | inventory
  deriving DecidableEq, Repr

/-- The validator's view of the persistence store: which (kind, id) records
currently exist. -/
abbrev VStore := List (Ent × Nat)

/-- A create operation: inserts the record if it is not already present. -/
def vinsert (st : VStore) (x : Ent × Nat) : VStore :=
  if x ∈ st then st else x :: st

/-- A delete operation: removes the record from the store. -/
def vremove (st : VStore) (x : Ent × Nat) : VStore :=
  st.filter (fun y => y ≠ x)

/-- An inventory row as read back by `get_inventory_by_id`: only the
quantity is inspected by the test. -/
structure InvRow where
  quantity : ℤ

/-- The environment of one `test_inventory_operations` run (src/validate.py
lines 175-283): the answers of the external CRUD API at each step, in
program order.  `none` stands for a falsy answer (failed create or missing
row). -/
structure InvEnv where
  pid : Option Nat
  bid : Option Nat
  invId : Option Nat
  firstGet : Option InvRow
  updId : Option Nat
  secondGet : Option InvRow
  detailKeys : Option (List String)
  delInvOk : Bool
  getAfterDelete : Option InvRow

/-- Embedding of `test_inventory_operations` (src/validate.py lines
175-283) as a state transformer on the store: the helper product and
branch are created first; each intermediate check returns `false` early
without any cleanup; only after every check passes are the helper product
and branch deleted (lines 280-281) and `true` returned.  The second
`create_or_update_inventory` call updates the month row in place, inserting
only if its id is new. -/
def test_inventory_operations (env : InvEnv) (st : VStore) : Bool × VStore :=
  let st1 := match env.pid with | some p => vinsert st (.product, p) | none => st
  let st2 := match env.bid with | some b => vinsert st1 (.branch, b) | none => st1
  match env.pid, env.bid with
  | some p, some b =>
    match env.invId with
    | none => (false, st2)
    | some iid =>
      let st3 := vinsert st2 (.inventory, iid)
      match env.firstGet with
      | none => (false, st3)
      | some r1 =>
        if r1.quantity ≠ 100 then (false, st3) else
        match env.updId with
        | none => (false, st3)
        | some uid =>
          let st4 := vinsert st3 (.inventory, uid)
          if uid ≠ iid then (false, st4) else
          match env.secondGet with
          | none => (false, st4)
          | some r2 =>
            if r2.quantity ≠ 150 then (false, st4) else
            match env.detailKeys with
            | none => (false, st4)
            | some ks =>
              if "product_name" ∉ ks then (false, st4) else
              let st5 := if env.delInvOk then vremove st4 (.inventory, iid) else st4
              if !env.delInvOk then (false, st5) else
              match env.getAfterDelete with
              | some _ => (false, st5)
              | none =>
                let st6 := vremove st5 (.product, p)
                let st7 := vremove st6 (.branch, b)
                (true, st7)
  | _, _ => (false, st2)

end InventoryValidation

namespace InventoryMigration

/-- When every record of a category list is valid, the category counter
ends at the list's length and no error is appended. -/
lemma runCat_all_valid (c : Cat) (rs : List RawRecord) :
    ∀ (i : Nat) (st : Store), (∀ r ∈ rs, validRecord c r = true) →
      (runCat c i rs st).1 = rs.length ∧ (runCat c i rs st).2.1 = [] := by
  induction rs with
  | nil => intro i st _; simp [runCat]
  | cons r rest ih =>
    intro i st h
    have hr : validRecord c r = true := h r (by simp)
    have hrest : ∀ x ∈ rest, validRecord c x = true :=
      fun x hx => h x (List.mem_cons_of_mem r hx)
    obtain ⟨h1, h2⟩ := ih (i + 1) (st ++ [(c, r)]) hrest
    simp [runCat, hr, h1, h2]

/-- Every error produced while processing a category is tagged with that
category. -/
lemma runCat_err_tag (c : Cat) (rs : List RawRecord) :
    ∀ (i : Nat) (st : Store) (e : Cat × String),
      e ∈ (runCat c i rs st).2.1 → e.1 = c := by
  induction rs with
  | nil => intro i st e he; simp [runCat] at he
  | cons r rest ih =>
    intro i st e he
    by_cases hr : validRecord c r = true
    · simp [runCat, hr] at he
      exact ih (i + 1) (st ++ [(c, r)]) e he
    · simp [runCat, hr] at he
      rcases he with rfl | he
      · rfl
      · exact ih (i + 1) st e he

/-- Lookup of the products counter in a success dictionary. -/
lemma dlookup_successDict_products (o : MigOutcome) :
    dlookup (successDict o) "products" = some (.nat o.products) := rfl

/-- C1: for every file path ending neither in `.json` nor in `.html` (for
example a `.txt` path), `migrate_from_file` returns `success=false` with
the unsupported-file-type error message, and the persistence store is
unchanged by the call. -/
theorem c1_unsupported_type_no_writes
    (parse : String → Option LegacyExport) (find : String → Option String)
    (fs : String → String) (file_path : String) (st : Store)
    (hjson : endswith file_path ".json" = false)
    (hhtml : endswith file_path ".html" = false) :
    dlookup (migrate_from_file parse find fs file_path st).result "success"
        = some (.bool false) ∧
    dlookup (migrate_from_file parse find fs file_path st).result "error"
        = some (.str "Unsupported file type. Use .json or .html") ∧
    (migrate_from_file parse find fs file_path st).store = st := by
  unfold migrate_from_file
  simp [hjson, hhtml]
  exact ⟨rfl, rfl⟩

theorem c1_unsupported_type_no_writes_witness :
    endswith "data.txt" ".json" = false ∧ endswith "data.txt" ".html" = false ∧
    (dlookup (migrate_from_file (fun _ => none) (fun _ => none) (fun _ => "")
        "data.txt" []).result "success" = some (.bool false) ∧
     dlookup (migrate_from_file (fun _ => none) (fun _ => none) (fun _ => "")
        "data.txt" []).result "error"
        = some (.str "Unsupported file type. Use .json or .html") ∧
     (migrate_from_file (fun _ => none) (fun _ => none) (fun _ => "")
        "data.txt" []).store = []) :=
  ⟨by decide, by decide,
   c1_unsupported_type_no_writes (fun _ => none) (fun _ => none) (fun _ => "")
     "data.txt" [] (by decide) (by decide)⟩

/-- C2, counterexample: the unsupported-extension failure result of
`migrate_from_file` (src/migrate.py line 48) carries no `errors` key at
all, so not every top-level failure result has the claimed
`{success, error, errors}` shape. -/
theorem c2_failure_shape_counterexample :
    dlookup (migrate_from_file (fun _ => none) (fun _ => none) (fun _ => "")
        "data.txt" []).result "success" = some (.bool false) ∧
    dlookup (migrate_from_file (fun _ => none) (fun _ => none) (fun _ => "")
        "data.txt" []).result "errors" = none := by
  constructor <;> decide

/-- C2, amended: when the content of a `.json`/`.html` file cannot be
parsed at all, the failure result has the
`{success: false, error: string, errors: [string]}` shape; the
unsupported-extension failure result instead carries only `success=false`
and the error string, with no `errors` key. -/
theorem c2_failure_shape_amended :
    (∀ (parse : String → Option LegacyExport) (text : String) (st : Store),
       parse text = none →
         dlookup (migrate_from_json parse text st).1 "success"
             = some (.bool false) ∧
         (∃ s, dlookup (migrate_from_json parse text st).1 "error"
             = some (.str s)) ∧
         (∃ l, dlookup (migrate_from_json parse text st).1 "errors"
             = some (.strList l))) ∧
    (∀ (parse : String → Option LegacyExport) (find : String → Option String)
       (fs : String → String) (file_path : String) (st : Store),
       endswith file_path ".json" = false → endswith file_path ".html" = false →
         dlookup (migrate_from_file parse find fs file_path st).result "success"
             = some (.bool false) ∧
         (∃ s, dlookup (migrate_from_file parse find fs file_path st).result
             "error" = some (.str s)) ∧
         dlookup (migrate_from_file parse find fs file_path st).result "errors"
             = none) := by
  constructor
  · intro parse text st hparse
    unfold migrate_from_json
    rw [hparse]
    exact ⟨rfl, ⟨"Invalid JSON data", rfl⟩, ⟨[], rfl⟩⟩
  · intro parse find fs file_path st hjson hhtml
    unfold migrate_from_file
    simp [hjson, hhtml]
    exact ⟨rfl, ⟨"Unsupported file type. Use .json or .html", rfl⟩, rfl⟩

theorem c2_failure_shape_amended_witness :
    ((fun (_ : String) => (none : Option LegacyExport)) "not json" = none ∧
     dlookup (migrate_from_json (fun _ => none) "not json" []).1 "success"
         = some (.bool false) ∧
     (∃ s, dlookup (migrate_from_json (fun _ => none) "not json" []).1 "error"
         = some (.str s)) ∧
     (∃ l, dlookup (migrate_from_json (fun _ => none) "not json" []).1 "errors"
         = some (.strList l))) ∧
    (endswith "data.txt" ".json" = false ∧ endswith "data.txt" ".html" = false ∧
     dlookup (migrate_from_file (fun _ => none) (fun _ => none) (fun _ => "")
         "data.txt" []).result "errors" = none) :=
  ⟨⟨rfl, c2_failure_shape_amended.1 (fun _ => none) "not json" [] rfl⟩,
   ⟨by decide, by decide,
    (c2_failure_shape_amended.2 (fun _ => none) (fun _ => none) (fun _ => "")
      "data.txt" [] (by decide) (by decide)).2.2⟩⟩

/-- C3: an HTML file whose document contains no embedded local-storage
payload leads to an extracted empty payload, which no JSON parse accepts,
so the migration returns a failure result (`success=false`) with the store
untouched, rather than raising an uncaught exception. -/
theorem c3_html_without_payload_fails
    (parse : String → Option LegacyExport) (find : String → Option String)
    (fs : String → String) (file_path : String) (st : Store)
    (hjson : endswith file_path ".json" = false)
    (hhtml : endswith file_path ".html" = true)
    (hfind : find (fs file_path) = none)
    (hparse : parse "" = none) :
    dlookup (migrate_from_file parse find fs file_path st).result "success"
        = some (.bool false) ∧
    (migrate_from_file parse find fs file_path st).store = st := by
  unfold migrate_from_file extract_localstorage_from_html
  simp [hjson, hhtml, hfind]
  unfold migrate_from_json
  rw [hparse]
  exact ⟨rfl, rfl⟩

theorem c3_html_without_payload_fails_witness :
    endswith "page.html" ".json" = false ∧ endswith "page.html" ".html" = true ∧
    (fun (_ : String) => (none : Option String)) "<html></html>" = none ∧
    (fun (_ : String) => (none : Option LegacyExport)) "" = none ∧
    (dlookup (migrate_from_file (fun _ => none) (fun _ => none)
        (fun _ => "<html></html>") "page.html" []).result "success"
        = some (.bool false) ∧
     (migrate_from_file (fun _ => none) (fun _ => none)
        (fun _ => "<html></html>") "page.html" []).store = []) :=
  ⟨by decide, by decide, rfl, rfl,
   c3_html_without_payload_fails (fun _ => none) (fun _ => none)
     (fun _ => "<html></html>") "page.html" [] (by decide) (by decide) rfl rfl⟩

end InventoryMigration

namespace InventoryMigration

/-- C7: for every legacy export whose product records are all valid,
`migrate_from_json` reports `products` equal to the number of product
records, and no accumulated error is attributable to the product
category. -/
theorem c7_all_valid_products_counted
    (parse : String → Option LegacyExport) (text : String) (st : Store)
    (ex : LegacyExport)
    (hparse : parse text = some ex)
    (hval : ∀ r ∈ ex.products, validRecord Cat.products r = true) :
    dlookup (migrate_from_json parse text st).1 "products"
        = some (.nat ex.products.length) ∧
    (migrateExport ex st).errors.filter (fun e => e.1 = Cat.products) = [] := by
  obtain ⟨hcount, herrs⟩ := runCat_all_valid Cat.products ex.products 0 st hval
  constructor
  · unfold migrate_from_json
    rw [hparse]
    rw [dlookup_successDict_products]
    unfold migrateExport
    simp [hcount]
  · have hother : ∀ (c : Cat) (i : Nat) (rs : List RawRecord) (st2 : Store),
        c ≠ Cat.products →
        (runCat c i rs st2).2.1.filter (fun e => e.1 = Cat.products) = [] := by
      intro c i rs st2 hc
      refine List.filter_eq_nil_iff.mpr ?_
      intro e he
      have := runCat_err_tag c rs i st2 e he
      simp [this, hc]
    unfold migrateExport
    simp only [List.filter_append]
    rw [herrs]
    rw [hother Cat.branches 0 ex.branches _ (by decide),
        hother Cat.inventory 0 ex.inventory _ (by decide),
        hother Cat.waste 0 ex.waste _ (by decide),
        hother Cat.purchases 0 ex.purchases _ (by decide),
        hother Cat.invoices 0 ex.invoices _ (by decide)]
    simp

/-- A one-product legacy export used as a concrete instance (the spec
section 8 end-to-end example's product record). -/
def sampleExport : LegacyExport :=
  ⟨[[("name", FVal.str "A"), ("category", FVal.str "c"),
     ("price", FVal.num 1), ("cost", FVal.num 1),
     ("measurement_unit", FVal.str "u")]], [], [], [], [], []⟩

theorem c7_all_valid_products_counted_witness :
    ((fun (_ : String) => some sampleExport) "e" = some sampleExport) ∧
    (∀ r ∈ sampleExport.products, validRecord Cat.products r = true) ∧
    dlookup (migrate_from_json (fun _ => some sampleExport) "e" []).1 "products"
      = some (.nat 1) ∧
    (migrateExport sampleExport []).errors.filter
        (fun e => e.1 = Cat.products) = [] :=
  ⟨rfl, by decide,
   (c7_all_valid_products_counted (fun _ => some sampleExport) "e" []
      sampleExport rfl (by decide)).1,
   (c7_all_valid_products_counted (fun _ => some sampleExport) "e" []
      sampleExport rfl (by decide)).2⟩

/-- C8: `migrate_from_file` dispatches on an exact, case-sensitive filename
suffix: a `.json` path is read and passed directly to `migrate_from_json`;
otherwise a `.html` path is read and routed through
`extract_localstorage_from_html`; every other path — `endswith` being
case-sensitive, this includes `"data.JSON"` and `"page.HTML"` — gets the
unsupported-file-type failure result with no file read. -/
theorem c8_suffix_dispatch_case_sensitive :
    (∀ (parse : String → Option LegacyExport) (find : String → Option String)
       (fs : String → String) (file_path : String) (st : Store),
       endswith file_path ".json" = true →
         migrate_from_file parse find fs file_path st =
           { result := (migrate_from_json parse (fs file_path) st).1,
             store := (migrate_from_json parse (fs file_path) st).2,
             reads := [file_path] }) ∧
    (∀ (parse : String → Option LegacyExport) (find : String → Option String)
       (fs : String → String) (file_path : String) (st : Store),
       endswith file_path ".json" = false →
       endswith file_path ".html" = true →
         migrate_from_file parse find fs file_path st =
           { result := (migrate_from_json parse
               (extract_localstorage_from_html find (fs file_path)) st).1,
             store := (migrate_from_json parse
               (extract_localstorage_from_html find (fs file_path)) st).2,
             reads := [file_path] }) ∧
    (∀ (parse : String → Option LegacyExport) (find : String → Option String)
       (fs : String → String) (file_path : String) (st : Store),
       endswith file_path ".json" = false →
       endswith file_path ".html" = false →
         (migrate_from_file parse find fs file_path st).result =
           [("success", RVal.bool false),
            ("error", RVal.str "Unsupported file type. Use .json or .html")] ∧
         (migrate_from_file parse find fs file_path st).reads = []) ∧
    endswith "data.JSON" ".json" = false ∧
    endswith "page.HTML" ".html" = false := by
  refine ⟨?_, ?_, ?_, by decide, by decide⟩
  · intro parse find fs file_path st hjson
    unfold migrate_from_file
    simp [hjson]
  · intro parse find fs file_path st hjson hhtml
    unfold migrate_from_file
    simp [hjson, hhtml]
  · intro parse find fs file_path st hjson hhtml
    unfold migrate_from_file
    simp [hjson, hhtml]

theorem c8_suffix_dispatch_case_sensitive_witness :
    (endswith "data.json" ".json" = true ∧
     (migrate_from_file (fun _ => none) (fun _ => none) (fun _ => "")
        "data.json" []).reads = ["data.json"]) ∧
    (endswith "snap.html" ".json" = false ∧ endswith "snap.html" ".html" = true ∧
     (migrate_from_file (fun _ => none) (fun _ => none) (fun _ => "")
        "snap.html" []).reads = ["snap.html"]) ∧
    (endswith "data.JSON" ".json" = false ∧ endswith "data.JSON" ".html" = false ∧
     (migrate_from_file (fun _ => none) (fun _ => none) (fun _ => "")
        "data.JSON" []).reads = [] ∧
     dlookup (migrate_from_file (fun _ => none) (fun _ => none) (fun _ => "")
        "data.JSON" []).result "success" = some (.bool false)) :=
  ⟨⟨by decide,
    by rw [c8_suffix_dispatch_case_sensitive.1 (fun _ => none) (fun _ => none)
        (fun _ => "") "data.json" [] (by decide)]⟩,
   ⟨by decide, by decide,
    by rw [c8_suffix_dispatch_case_sensitive.2.1 (fun _ => none) (fun _ => none)
        (fun _ => "") "snap.html" [] (by decide) (by decide)]⟩,
   ⟨by decide, by decide,
    (c8_suffix_dispatch_case_sensitive.2.2.1 (fun _ => none) (fun _ => none)
        (fun _ => "") "data.JSON" [] (by decide) (by decide)).2,
    by
      rw [(c8_suffix_dispatch_case_sensitive.2.2.1 (fun _ => none)
        (fun _ => none) (fun _ => "") "data.JSON" [] (by decide)
        (by decide)).1]
      decide⟩⟩

end InventoryMigration

namespace InventoryValidation

/-- A group's recorded result is `true` exactly when its function returned
`true` (rather than returning `false` or raising). -/
lemma groupResult_eq_true_iff (o : TestOutcome) :
    groupResult o = true ↔ o = .ok true := by
  cases o with
  | ok b => cases b <;> simp [groupResult]
  | error e => simp [groupResult]

/-- The recorded results are exactly the groups' names paired with their
individual results, in order. -/
lemma runGroups_fst (l : List (String × TestOutcome)) :
    (runGroups l).1 = l.map (fun p => (p.1, groupResult p.2)) := by
  induction l with
  | nil => simp [runGroups]
  | cons hd tl ih => simp [runGroups, ih]

/-- The overall verdict is the conjunction of the groups' results. -/
lemma runGroups_snd (l : List (String × TestOutcome)) :
    (runGroups l).2 = l.all (fun p => groupResult p.2) := by
  induction l with
  | nil => simp [runGroups]
  | cons hd tl ih => simp [runGroups, ih, Bool.and_comm]

/-- C4: the validation CLI exits with code 0 exactly when all four test
groups returned `true`, and with code 1 otherwise; equivalently,
`run_validation_tests` returns `true` exactly when every group passed. -/
theorem c4_exit_code_iff_all_groups_pass (outs : TestOutcomes) :
    (validateExitCode outs = 0 ↔
       (outs.productOps = .ok true ∧ outs.branchOps = .ok true ∧
        outs.inventoryOps = .ok true ∧ outs.loadPerf = .ok true)) ∧
    (validateExitCode outs ≠ 0 → validateExitCode outs = 1) ∧
    (run_validation_tests outs = true ↔
       (outs.productOps = .ok true ∧ outs.branchOps = .ok true ∧
        outs.inventoryOps = .ok true ∧ outs.loadPerf = .ok true)) := by
  have hrun : run_validation_tests outs = true ↔
      (outs.productOps = .ok true ∧ outs.branchOps = .ok true ∧
       outs.inventoryOps = .ok true ∧ outs.loadPerf = .ok true) := by
    unfold run_validation_tests
    rw [runGroups_snd]
    simp [groupsList, ← groupResult_eq_true_iff]
  refine ⟨?_, ?_, hrun⟩
  · unfold validateExitCode
    by_cases h : run_validation_tests outs = true
    · simp [h, hrun.mp h]
    · rw [if_neg h]
      constructor
      · intro h0; exact absurd h0 (by decide)
      · intro hconj; exact absurd (hrun.mpr hconj) h
  · unfold validateExitCode
    by_cases h : run_validation_tests outs = true <;> simp [h]

/-- C5: if a test group's function raises, the exception is caught, the
group is recorded as failed, the overall verdict is failure, and every
group in the list still gets a recorded result (execution continues). -/
theorem c5_exception_marks_group_failed (outs : TestOutcomes) (i : Nat)
    (e : String) (h : i < (groupsList outs).length)
    (herr : ((groupsList outs).get ⟨i, h⟩).2 = .error e) :
    (runGroups (groupsList outs)).1[i]? =
      some (((groupsList outs).get ⟨i, h⟩).1, false) ∧
    run_validation_tests outs = false ∧
    (runGroups (groupsList outs)).1.length = (groupsList outs).length := by
  refine ⟨?_, ?_, ?_⟩
  · rw [runGroups_fst, List.getElem?_map, List.getElem?_eq_getElem h]
    rw [List.get_eq_getElem] at herr
    simp [List.get_eq_getElem, herr, groupResult]
  · unfold run_validation_tests
    rw [runGroups_snd]
    have hmem : (groupsList outs).get ⟨i, h⟩ ∈ groupsList outs :=
      List.get_mem _ _ _
    rcases Bool.eq_false_or_eq_true
        ((groupsList outs).all (fun p => groupResult p.2)) with ht | hf
    · exfalso
      have := (List.all_eq_true.mp ht) _ hmem
      rw [herr] at this
      simp [groupResult] at this
    · exact hf
  · rw [runGroups_fst]
    simp

theorem c5_exception_marks_group_failed_witness :
    (1 : Nat) < (groupsList ⟨.ok true, .error "boom", .ok true, .ok true⟩).length ∧
    ((groupsList ⟨.ok true, .error "boom", .ok true, .ok true⟩).get
        ⟨1, by decide⟩).2 = .error "boom" ∧
    ((runGroups (groupsList ⟨.ok true, .error "boom", .ok true, .ok true⟩)).1[1]? =
        some ("Branch Operations", false) ∧
     run_validation_tests ⟨.ok true, .error "boom", .ok true, .ok true⟩ = false ∧
     (runGroups (groupsList ⟨.ok true, .error "boom", .ok true, .ok true⟩)).1.length =
        (groupsList ⟨.ok true, .error "boom", .ok true, .ok true⟩).length) :=
  ⟨by decide, rfl,
   c5_exception_marks_group_failed ⟨.ok true, .error "boom", .ok true, .ok true⟩
     1 "boom" (by decide) rfl⟩

/-- C6: `test_load_performance` attempts to create exactly 100 products
(one per loop index), and returns `true` exactly when the measured creation
time is below 5 seconds, the retrieval time below 2 seconds, and the
cleanup time below 5 seconds. -/
theorem c6_load_test_thresholds (env : LoadEnv) :
    (test_load_performance env).attemptedCreates.length = 100 ∧
    ((test_load_performance env).result = true ↔
       (env.creationTime < 5 ∧ env.retrievalTime < 2 ∧ env.cleanupTime < 5)) := by
  constructor
  · simp [test_load_performance, num_products]
  · simp [test_load_performance, Bool.and_eq_true, decide_eq_true_iff, and_assoc]

end InventoryValidation

namespace InventoryValidation

/-- Membership after a create: the inserted record, or anything already
present. -/
lemma mem_vinsert (st : VStore) (x a : Ent × Nat) :
    a ∈ vinsert st x ↔ a = x ∨ a ∈ st := by
  unfold vinsert
  by_cases hx : x ∈ st
  · rw [if_pos hx]
    constructor
    · exact Or.inr
    · rintro (rfl | h)
      · exact hx
      · exact h
  · rw [if_neg hx]
    exact List.mem_cons

/-- Membership after a delete: present before and not the removed
record. -/
lemma mem_vremove (st : VStore) (x a : Ent × Nat) :
    a ∈ vremove st x ↔ a ∈ st ∧ a ≠ x := by
  unfold vremove
  simp [List.mem_filter]

/-- C9: in `test_inventory_operations`, assuming the helper product and
branch were created (truthy ids not previously in the store), every early
failure return leaves both helper records in the persistence store, and
only the all-checks-pass path deletes them. -/
theorem c9_cleanup_only_on_success
    (env : InvEnv) (st0 : VStore) (p b : Nat)
    (hp : env.pid = some p) (hb : env.bid = some b)
    (hfp : (Ent.product, p) ∉ st0) (hfb : (Ent.branch, b) ∉ st0) :
    ((test_inventory_operations env st0).1 = false →
       (Ent.product, p) ∈ (test_inventory_operations env st0).2 ∧
       (Ent.branch, b) ∈ (test_inventory_operations env st0).2) ∧
    ((test_inventory_operations env st0).1 = true →
       (Ent.product, p) ∉ (test_inventory_operations env st0).2 ∧
       (Ent.branch, b) ∉ (test_inventory_operations env st0).2) := by
  obtain ⟨pid, bid, invId, firstGet, updId, secondGet, detailKeys, delInvOk,
    getAfterDelete⟩ := env
  change pid = some p at hp
  change bid = some b at hb
  subst hp
  subst hb
  rcases invId with _ | iid
  · simp_all [test_inventory_operations, mem_vinsert, mem_vremove]
  rcases firstGet with _ | r1
  · simp_all [test_inventory_operations, mem_vinsert, mem_vremove]
  by_cases hq1 : r1.quantity ≠ 100
  · simp_all [test_inventory_operations, mem_vinsert, mem_vremove]
  rcases updId with _ | uid
  · simp_all [test_inventory_operations, mem_vinsert, mem_vremove]
  by_cases hu : uid ≠ iid
  · simp_all [test_inventory_operations, mem_vinsert, mem_vremove]
  rcases secondGet with _ | r2
  · simp_all [test_inventory_operations, mem_vinsert, mem_vremove]
  by_cases hq2 : r2.quantity ≠ 150
  · simp_all [test_inventory_operations, mem_vinsert, mem_vremove]
  rcases detailKeys with _ | ks
  · simp_all [test_inventory_operations, mem_vinsert, mem_vremove]
  by_cases hks : "product_name" ∉ ks
  · simp_all [test_inventory_operations, mem_vinsert, mem_vremove]
  rcases delInvOk with _ | _
  · simp_all [test_inventory_operations, mem_vinsert, mem_vremove]
  rcases getAfterDelete with _ | gad
  · simp_all [test_inventory_operations, mem_vinsert, mem_vremove]
  · simp_all [test_inventory_operations, mem_vinsert, mem_vremove]

end InventoryValidation

namespace InventoryValidation

theorem c9_cleanup_only_on_success_witness :
    (⟨some 1, some 2, none, none, none, none, none, false, none⟩ : InvEnv).pid
        = some 1 ∧
    (⟨some 1, some 2, none, none, none, none, none, false, none⟩ : InvEnv).bid
        = some 2 ∧
    (Ent.product, 1) ∉ ([] : VStore) ∧ (Ent.branch, 2) ∉ ([] : VStore) ∧
    (test_inventory_operations
        ⟨some 1, some 2, none, none, none, none, none, false, none⟩ []).1
        = false ∧
    (Ent.product, 1) ∈ (test_inventory_operations
        ⟨some 1, some 2, none, none, none, none, none, false, none⟩ []).2 ∧
    (Ent.branch, 2) ∈ (test_inventory_operations
        ⟨some 1, some 2, none, none, none, none, none, false, none⟩ []).2 :=
  ⟨rfl, rfl, by simp, by simp, by decide,
   ((c9_cleanup_only_on_success
       ⟨some 1, some 2, none, none, none, none, none, false, none⟩ [] 1 2
       rfl rfl (by simp) (by simp)).1 (by decide)).1,
   ((c9_cleanup_only_on_success
       ⟨some 1, some 2, none, none, none, none, none, false, none⟩ [] 1 2
       rfl rfl (by simp) (by simp)).1 (by decide)).2⟩

end InventoryValidation

namespace InventoryMigration

/-- C10: the migration CLI's printing function indexes a truthy-success
result directly with the seven keys `products`, `branches`, `inventory`,
`waste`, `purchases`, `invoices` and `errors`, so it produces output
exactly when all seven keys are present (a missing key crashes); on a
falsy-success result it only uses defaulted lookups and always produces
output. -/
theorem c10_success_path_requires_all_keys :
    (∀ (d : ResultDict) (v : RVal),
       dlookup d "success" = some v → pyTruthy v = true →
       ((mainOutput d).isSome ↔
         ((dlookup d "products").isSome ∧ (dlookup d "branches").isSome ∧
          (dlookup d "inventory").isSome ∧ (dlookup d "waste").isSome ∧
          (dlookup d "purchases").isSome ∧ (dlookup d "invoices").isSome ∧
          (dlookup d "errors").isSome))) ∧
    (∀ (d : ResultDict) (v : RVal),
       dlookup d "success" = some v → pyTruthy v = false →
       (mainOutput d).isSome) := by
  constructor
  · intro d v hs ht
    unfold mainOutput
    rw [hs]
    simp only [Option.bind_eq_bind, Option.some_bind, ht, if_true]
    cases h1 : dlookup d "products"
    · simp
    cases h2 : dlookup d "branches"
    · simp
    cases h3 : dlookup d "inventory"
    · simp
    cases h4 : dlookup d "waste"
    · simp
    cases h5 : dlookup d "purchases"
    · simp
    cases h6 : dlookup d "invoices"
    · simp
    cases h7 : dlookup d "errors"
    · simp
    · simp
  · intro d v hs ht
    unfold mainOutput
    rw [hs]
    simp only [Option.bind_eq_bind, Option.some_bind, ht]
    simp

theorem c10_success_path_requires_all_keys_witness :
    (dlookup [("success", RVal.bool true)] "success" = some (RVal.bool true) ∧
     pyTruthy (RVal.bool true) = true ∧
     (mainOutput [("success", RVal.bool true)]).isSome = false) ∧
    (dlookup (successDict (migrateExport sampleExport [])) "success"
        = some (RVal.bool true) ∧
     (mainOutput (successDict (migrateExport sampleExport []))).isSome = true) ∧
    (dlookup [("success", RVal.bool false)] "success"
        = some (RVal.bool false) ∧
     pyTruthy (RVal.bool false) = false ∧
     (mainOutput [("success", RVal.bool false)]).isSome = true) :=
  ⟨⟨rfl, rfl, by
      have h := (c10_success_path_requires_all_keys.1
        [("success", RVal.bool true)] (RVal.bool true) rfl rfl)
      rw [← Bool.not_eq_true]
      simp only [h]
      decide⟩,
   ⟨by decide, by
      have := (c10_success_path_requires_all_keys.1
        (successDict (migrateExport sampleExport []))
        (RVal.bool true) (by decide) rfl)
      simp only [this]
      decide⟩,
   ⟨rfl, rfl,
    by
      have := c10_success_path_requires_all_keys.2
        [("success", RVal.bool false)] (RVal.bool false) rfl rfl
      simpa using this⟩⟩

end InventoryMigration

namespace InventoryValidation

theorem c4_exit_code_iff_all_groups_pass_witness :
    (validateExitCode ⟨.ok true, .ok true, .ok true, .ok true⟩ = 0 ∧
     run_validation_tests ⟨.ok true, .ok true, .ok true, .ok true⟩ = true) ∧
    (validateExitCode ⟨.ok true, .ok false, .ok true, .ok true⟩ ≠ 0 ∧
     validateExitCode ⟨.ok true, .ok false, .ok true, .ok true⟩ = 1) :=
  ⟨⟨(c4_exit_code_iff_all_groups_pass
       ⟨.ok true, .ok true, .ok true, .ok true⟩).1.mpr ⟨rfl, rfl, rfl, rfl⟩,
    (c4_exit_code_iff_all_groups_pass
       ⟨.ok true, .ok true, .ok true, .ok true⟩).2.2.mpr ⟨rfl, rfl, rfl, rfl⟩⟩,
   ⟨by decide,
    (c4_exit_code_iff_all_groups_pass
       ⟨.ok true, .ok false, .ok true, .ok true⟩).2.1 (by decide)⟩⟩

end InventoryValidation
